import Mathlib

/-!
Verification of the Weather-Risk-Checker convective-analysis core.

The Python source (`src/met_core.py`, `src/analysis_engine.py`) is shallowly
embedded over `ℚ`.  Transcendental sub-computations (logarithms, square
roots, exponentials inside parcel lifting and wind geometry) are supplied as
explicit function parameters or as already-computed stage inputs, so every
definition below remains computable; the arithmetic, guards, accumulation
loops and the rule cascade are translated directly from the source.
-/

set_option maxHeartbeats 1000000

-- ───────────────────────────── met_core.py constants ──────────────────────

/-- dry air gas constant (J kg-1 K-1), met_core.py `Rd`. -/
def Rd : ℚ := 287.04

/-- gravitational acceleration (m s-2), met_core.py `g`. -/
def g : ℚ := 9.81

/-- Python `round(x, d)` on a rational, to `d` decimal places. -/
def roundQ (d : ℕ) (x : ℚ) : ℚ := ((round (x * 10 ^ d) : ℤ) : ℚ) / 10 ^ d

-- ───────────────────────────── CAPE / CIN loop ─────────────────────────────

/-- One iteration of the `_cape_cin` integration loop in
`compute_cape_cin` (met_core.py lines 204-216): a positive layer
contribution is added to CAPE, a non-positive one is added to CIN only when
the CAPE accumulated so far is still zero. -/
def capeCinStep (s : ℚ × ℚ) (c : ℚ) : ℚ × ℚ :=
  if 0 < c then (s.1 + c, s.2)
  else if s.1 = 0 then (s.1, s.2 + c)
  else s

/-- The `_cape_cin` accumulation loop over the list of per-layer
buoyancy-times-thickness contributions, starting from `cape = 0, cin = 0`. -/
def capeCinFold (contribs : List ℚ) : ℚ × ℚ :=
  contribs.foldl capeCinStep (0, 0)

/-- Per-layer contributions `b_mean * dz` of `_cape_cin`
(met_core.py lines 204-210).  Levels are `(p, t_parcel_k, env_k)` triples,
bottom to top; `lg` is the natural logarithm used by the hypsometric
thickness. -/
def layerContribs (lg : ℚ → ℚ) : List (ℚ × ℚ × ℚ) → List ℚ
  | (p1, tp1, te1) :: (p2, tp2, te2) :: rest =>
      (g * ((tp1 + tp2) / 2 - (te1 + te2) / 2) / ((te1 + te2) / 2) *
        ((Rd * ((te1 + te2) / 2)) / g * lg (p1 / p2)))
        :: layerContribs lg ((p2, tp2, te2) :: rest)
  | _ => []

/-- `_cape_cin` (met_core.py lines 176-218): fewer than two levels above the
parcel origin give `(0, 0)`, otherwise the contributions are accumulated. -/
def cape_cin (lg : ℚ → ℚ) (levels : List (ℚ × ℚ × ℚ)) : ℚ × ℚ :=
  if levels.length < 2 then (0, 0)
  else capeCinFold (layerContribs lg levels)

/-- Result record of `compute_cape_cin` (met_core.py lines 223-233). -/
structure CapeCinResult where
  mlcape : ℚ
  mucape : ℚ
  mlcin : ℚ
  mucin : ℚ
  mu_p : ℚ
  ml_lcl_hgt : ℚ
  mu_lcl_hgt : ℚ
  ml_lcl_t_c : ℚ
  mu_lcl_t_c : ℚ
deriving DecidableEq, Repr

/-- `compute_cape_cin` (met_core.py lines 132-233).  Parcel selection and
adiabatic lifting involve transcendental functions, so the two lifted
parcel/environment level lists and the LCL diagnostics enter as inputs; the
integration and the final CAPE floor `max(0.0, cape)` are as in the source. -/
def compute_cape_cin (lg : ℚ → ℚ) (mlLevels muLevels : List (ℚ × ℚ × ℚ))
    (mu_p ml_lcl_hgt mu_lcl_hgt ml_lcl_t_c mu_lcl_t_c : ℚ) : CapeCinResult :=
  let ml := cape_cin lg mlLevels
  let mu := cape_cin lg muLevels
  { mlcape := max 0 ml.1
    mucape := max 0 mu.1
    mlcin := ml.2
    mucin := mu.2
    mu_p := mu_p
    ml_lcl_hgt := ml_lcl_hgt
    mu_lcl_hgt := mu_lcl_hgt
    ml_lcl_t_c := ml_lcl_t_c
    mu_lcl_t_c := mu_lcl_t_c }

-- ───────────────────────────── Bunkers storm motion ───────────────────────

/-- `np.trapz y x` over a list of `(x, y)` sample pairs. -/
def trapz : List (ℚ × ℚ) → ℚ
  | (x1, y1) :: (x2, y2) :: rest => (x2 - x1) * (y1 + y2) / 2 + trapz ((x2, y2) :: rest)
  | _ => 0

/-- Result record of `bunkers_storm_motion` (met_core.py lines 294-329). -/
structure BunkersResult where
  rm_u : ℚ
  rm_v : ℚ
  lm_u : ℚ
  lm_v : ℚ
  mean_u : ℚ
  mean_v : ℚ
deriving DecidableEq, Repr

/-- `bunkers_storm_motion` (met_core.py lines 280-329).  `levels` holds
`(height_m_agl, u_kt, v_kt)` triples; `sq` is the square root used for the
shear magnitude.  Fewer than two in-layer levels give the all-zero record;
a shear magnitude below 0.5 kt gives the fixed ±7.5 kt fallback; otherwise
the deviation `D` is applied perpendicular to the 0-top shear vector. -/
def bunkers_storm_motion (sq : ℚ → ℚ) (levels : List (ℚ × ℚ × ℚ))
    (top_m : ℚ := 6000) (D_kt : ℚ := 14.6) : BunkersResult :=
  let layer := levels.filter fun l => l.1 ≤ top_m
  if layer.length < 2 then ⟨0, 0, 0, 0, 0, 0⟩
  else
    let l0 := layer.headD (0, 0, 0)
    let lN := layer.getLastD (0, 0, 0)
    let mean_u := trapz (layer.map fun l => (l.1, l.2.1)) / (lN.1 - l0.1)
    let mean_v := trapz (layer.map fun l => (l.1, l.2.2)) / (lN.1 - l0.1)
    let sh_u := lN.2.1 - l0.2.1
    let sh_v := lN.2.2 - l0.2.2
    let shear_mag := sq (sh_u ^ 2 + sh_v ^ 2)
    if shear_mag < 0.5 then
      ⟨mean_u + 7.5, mean_v - 7.5, mean_u - 7.5, mean_v + 7.5, mean_u, mean_v⟩
    else
      let perp_u := sh_v / shear_mag
      let perp_v := -sh_u / shear_mag
      ⟨mean_u + D_kt * perp_u, mean_v + D_kt * perp_v,
       mean_u - D_kt * perp_u, mean_v - D_kt * perp_v, mean_u, mean_v⟩

-- ───────────────────────────── Composite indices ──────────────────────────

/-- `supercell_composite` (met_core.py lines 410-418). -/
def supercell_composite (mucape eff_srh shear_06_kt : ℚ) : ℚ :=
  if mucape < 100 ∨ eff_srh ≤ 0 ∨ shear_06_kt < 10 then 0
  else roundQ 2 ((mucape / 1000) * (eff_srh / 50) * (shear_06_kt / 20))

/-- `significant_tornado_parameter` (met_core.py lines 420-439). -/
def significant_tornado_parameter (mlcape ml_lcl_hgt srh_01 shear_06_kt mlcin : ℚ) : ℚ :=
  if mlcape < 100 ∨ srh_01 ≤ 0 ∨ shear_06_kt < 12 then 0
  else
    let lcl_factor := max 0 (min 1 ((2000 - ml_lcl_hgt) / 1000))
    let cin_factor := max 0 (min 1 ((mlcin + 200) / 150))
    roundQ 2 ((mlcape / 1500) * lcl_factor * (srh_01 / 150) * (shear_06_kt / 20) * cin_factor)

/-- `energy_helicity_index` (met_core.py lines 441-449). -/
def energy_helicity_index (cape srh : ℚ) : ℚ :=
  if cape < 100 ∨ srh ≤ 0 then 0
  else roundQ 2 ((cape * srh) / 160000)

/-- `significant_hail_parameter` (met_core.py lines 451-474). -/
def significant_hail_parameter (mucape mu_lcl_t_c mid_lapse precipitable_water shear_06_kt : ℚ) : ℚ :=
  if mucape < 100 then 0
  else
    let lcl_t_term := max 0 (-mu_lcl_t_c / 10)
    let lapse_term := max 0 (mid_lapse / 5.5)
    let pw_term := max 0 (min 1.5 (precipitable_water / 13.6))
    let shear_term := min 1.5 (shear_06_kt / 27)
    roundQ 2 ((mucape / 1000) * lcl_t_term * lapse_term * pw_term * shear_term)

/-- `vorticity_generation_parameter` (met_core.py lines 476-488); `sq` is
the square root applied to `max 0 srh_01 * shear_01_kt`. -/
def vorticity_generation_parameter (sq : ℚ → ℚ) (srh_01 shear_01_kt : ℚ) : ℚ :=
  if srh_01 ≤ 0 ∨ shear_01_kt ≤ 0 then 0
  else roundQ 3 (sq (max 0 srh_01 * shear_01_kt) / 1000)

/-- `craven_brooks` (met_core.py lines 490-499). -/
def craven_brooks (mlcape shear_06_kt : ℚ) : ℚ :=
  let shear_ms := shear_06_kt * 0.514
  roundQ 0 (mlcape * shear_ms)

-- ───────────────────────────── analysis_engine.py ─────────────────────────

/-- The human-readable messages appended to `fail_modes`, `notes` and
`warnings` by analysis_engine.py, one constructor per message site, each
carrying the numeric values interpolated into the Python f-string. -/
inductive Msg where
  | insufficientLevels
  | capeIncomplete
  | kinIncomplete
  | gridUnavailable
  | gateInsufficientInstability
  | extremeCap (cin : ℚ)
  | moderateCap (cin : ℚ)
  | weakCap (cin : ℚ)
  | highLCL (hgt : ℚ)
  | elevatedLCL (hgt : ℚ)
  | veryLowLCL (hgt : ℚ)
  | verySteepMidLapse (lr : ℚ)
  | steepMidLapse (lr : ℚ)
  | weakLowLapse (lr : ℚ)
  | veryDryBL (rh : ℚ)
  | marginalBL (rh : ℚ)
  | highPW (pw : ℚ)
  | weakShearHighCape (sh : ℚ)
  | stpSignificant (stp : ℚ)
  | stpTornado (stp : ℚ)
  | stpMarginal (stp : ℚ)
  | scpSignificant (scp : ℚ)
  | shipSignificant (ship : ℚ)
  | embeddedRotation
  | limitedCape
  | cravenSignificant (cb : ℚ)
  | pulseWeakShear (sh : ℚ)
  | outflowDominant
  | ehiSignificant (e : ℚ)
  | ehiSupportive (e : ℚ)
  | vgpFavorable (v : ℚ)
  | boundaryNearby (btype : String) (grad : ℚ)
deriving DecidableEq, Repr

/-- The boundary-detection sub-record (the dict stored in
`EnvironmentAnalysis.boundary`). -/
structure BoundaryInfo where
  detected : Bool
  btype : String
  max_gradient : ℚ
  bnotes : List Msg
deriving DecidableEq, Repr

/-- The `EnvironmentAnalysis` dataclass (analysis_engine.py lines 42-99)
with its field defaults; `boundary = none` models the initially empty dict,
and the metadata fields `valid_time` / `source` are omitted. -/
structure EnvironmentAnalysis where
  mlcape : ℚ := 0
  mucape : ℚ := 0
  mlcin : ℚ := 0
  mucin : ℚ := 0
  ml_lcl_hgt : ℚ := 0
  mu_lcl_hgt : ℚ := 0
  ml_lcl_t_c : ℚ := 0
  mu_lcl_t_c : ℚ := 0
  li : ℚ := 0
  lapse_700_500 : ℚ := 0
  lapse_sfc_700 : ℚ := 0
  pw_mm : ℚ := 0
  rh_sfc : ℚ := 0
  shear_01_kt : ℚ := 0
  shear_06_kt : ℚ := 0
  shear_36_kt : ℚ := 0
  srh_01 : ℚ := 0
  srh_03 : ℚ := 0
  srh_eff : ℚ := 0
  storm_motion_rm : ℚ × ℚ := (0, 0)
  storm_speed_kt : ℚ := 0
  storm_dir_deg : ℚ := 0
  scp : ℚ := 0
  stp : ℚ := 0
  ehi_01 : ℚ := 0
  ehi_03 : ℚ := 0
  ship : ℚ := 0
  vgp : ℚ := 0
  craven : ℚ := 0
  boundary : Option BoundaryInfo := none
  support_score : ℕ := 0
  support_label : String := "None"
  support_color : String := "grey"
  support_emoji : String := "⬛"
  convective_mode : String := "No Convective Threat"
  fail_modes : List Msg := []
  notes : List Msg := []
  warnings : List Msg := []

/-- A fresh all-default `EnvironmentAnalysis`, as constructed at the top of
`analyze_profile`. -/
def defaultAnalysis : EnvironmentAnalysis := {}

/-- `SUPPORT_LEVELS` (analysis_engine.py lines 102-109). -/
def SUPPORT_LEVELS : List (ℕ × String × String × String) :=
  [(0, "None", "grey", "⬛"), (1, "Marginal", "blue", "🟦"),
   (2, "Limited", "green", "🟩"), (3, "Moderate", "yellow", "🟨"),
   (4, "Enhanced", "orange", "🟧"), (5, "Extreme", "red", "🟥")]

/-- The five boolean score increments of `_score_and_reason`
(analysis_engine.py lines 370-375). -/
def rawScore (r : EnvironmentAnalysis) : ℕ :=
  (if 500 < r.mlcape then 1 else 0) + (if 1500 < r.mlcape then 1 else 0) +
    (if 30 < r.shear_06_kt then 1 else 0) +
    (if 2 < r.scp ∨ 0.5 < r.stp then 1 else 0) +
    (if 200 < r.srh_01 ∧ 1 ≤ r.stp then 1 else 0)

/-- The convective-mode priority ladder (analysis_engine.py lines 308-344),
returning the selected mode together with the fail modes, notes and
warnings appended while selecting it. -/
def convectiveMode (r : EnvironmentAnalysis) : String × List Msg × List Msg × List Msg :=
  if 40 ≤ r.shear_06_kt ∧ 500 ≤ r.mlcape then
    let tier : String × List Msg × List Msg :=
      if 2 ≤ r.stp then ("Significant Tornadic Supercells", [], [Msg.stpSignificant r.stp])
      else if 1 ≤ r.stp then ("Tornadic Supercells", [], [Msg.stpTornado r.stp])
      else if 0.5 ≤ r.stp then ("Supercells / Tornado Possible", [Msg.stpMarginal r.stp], [])
      else if 4 ≤ r.scp then ("Significant Supercell Environment", [], [Msg.scpSignificant r.scp])
      else ("Supercellular", [], [])
    let shipW : List Msg := if 1 ≤ r.ship then [Msg.shipSignificant r.ship] else []
    (tier.1, [], tier.2.1, tier.2.2 ++ shipW)
  else if 30 ≤ r.shear_06_kt ∧ 500 ≤ r.mlcape then
    if 20 ≤ r.shear_36_kt ∧ 100 ≤ r.srh_03 then
      ("QLCS / Embedded Supercells", [], [Msg.embeddedRotation], [])
    else ("Organized Multicells / QLCS", [], [], [])
  else if 20 ≤ r.shear_06_kt ∧ 300 ≤ r.mlcape then
    let mcN : List Msg := if r.mlcape < 1000 then [Msg.limitedCape] else []
    let mcW : List Msg := if 20000 < r.craven then [Msg.cravenSignificant r.craven] else []
    ("Multicell Clusters", [], mcN, mcW)
  else ("Pulse / Single Cell", [Msg.pulseWeakShear r.shear_06_kt], [], [])

/-- Output of the non-gate part of the `_score_and_reason` cascade. -/
structure CascadeOut where
  fails : List Msg
  notes : List Msg
  warns : List Msg
  mode : String

/-- The ordered rule cascade of `_score_and_reason`
(analysis_engine.py lines 270-367): CIN severity, LCL favorability, lapse
rates, moisture, weak-shear fail mode, convective-mode ladder, outflow
override, EHI/VGP/boundary annotations, each appending to its list in
source order. -/
def cascade (r : EnvironmentAnalysis) : CascadeOut :=
  let cinF : List Msg :=
    if r.mlcin < -200 then [Msg.extremeCap r.mlcin]
    else if r.mlcin < -75 then [Msg.moderateCap r.mlcin]
    else []
  let cinN : List Msg :=
    if r.mlcin < -200 then [] else if r.mlcin < -75 then []
    else if r.mlcin < -25 then [Msg.weakCap r.mlcin] else []
  let lclF : List Msg := if 2000 < r.ml_lcl_hgt then [Msg.highLCL r.ml_lcl_hgt] else []
  let lclN : List Msg :=
    if 2000 < r.ml_lcl_hgt then []
    else if 1500 < r.ml_lcl_hgt then [Msg.elevatedLCL r.ml_lcl_hgt]
    else if r.ml_lcl_hgt < 800 then [Msg.veryLowLCL r.ml_lcl_hgt] else []
  let lapseW : List Msg :=
    if 7 ≤ r.lapse_700_500 then [Msg.verySteepMidLapse r.lapse_700_500] else []
  let lapseN : List Msg :=
    if 7 ≤ r.lapse_700_500 then []
    else if 6.5 ≤ r.lapse_700_500 then [Msg.steepMidLapse r.lapse_700_500] else []
  let lowLapseF : List Msg :=
    if r.lapse_sfc_700 < 5 ∧ 500 < r.mlcape then [Msg.weakLowLapse r.lapse_sfc_700] else []
  let rhF : List Msg := if r.rh_sfc < 40 then [Msg.veryDryBL r.rh_sfc] else []
  let rhN : List Msg :=
    if r.rh_sfc < 40 then [] else if r.rh_sfc < 55 then [Msg.marginalBL r.rh_sfc] else []
  let pwN : List Msg := if 40 < r.pw_mm then [Msg.highPW r.pw_mm] else []
  let shearF : List Msg :=
    if r.shear_06_kt < 15 ∧ 1500 < r.mlcape then [Msg.weakShearHighCape r.shear_06_kt] else []
  let m := convectiveMode r
  let outF : List Msg :=
    if 2500 < r.mlcape ∧ r.shear_06_kt < 25 then [Msg.outflowDominant] else []
  let ehiW : List Msg := if 2.5 ≤ r.ehi_01 then [Msg.ehiSignificant r.ehi_01] else []
  let ehiN : List Msg :=
    if 2.5 ≤ r.ehi_01 then [] else if 1 ≤ r.ehi_01 then [Msg.ehiSupportive r.ehi_01] else []
  let vgpN : List Msg := if 0.2 ≤ r.vgp then [Msg.vgpFavorable r.vgp] else []
  let bN : List Msg :=
    match r.boundary with
    | some b => if b.detected then Msg.boundaryNearby b.btype b.max_gradient :: b.bnotes else []
    | none => []
  { fails := cinF ++ lclF ++ lowLapseF ++ rhF ++ shearF ++ m.2.1 ++ outF
    notes := cinN ++ lclN ++ lapseN ++ rhN ++ pwN ++ m.2.2.1 ++ ehiN ++ vgpN ++ bN
    warns := lapseW ++ m.2.2.2 ++ ehiW
    mode := m.1 }

/-- `_score_and_reason` (analysis_engine.py lines 256-382), as a function
from the incoming analysis to the updated one: the instability gate
returns immediately with the terminal classification, otherwise the
cascade and the capped five-increment score populate the record. -/
def score_and_reason (r : EnvironmentAnalysis) : EnvironmentAnalysis :=
  if r.mlcape < 100 ∧ r.mucape < 200 then
    { r with
      convective_mode := "No Convective Threat"
      fail_modes := [Msg.gateInsufficientInstability]
      support_score := 0
      support_label := "None"
      support_color := "grey"
      support_emoji := "⬛" }
  else
    let c := cascade r
    let score := min (rawScore r) 5
    let lvl := SUPPORT_LEVELS.getD score (0, "None", "grey", "⬛")
    { r with
      support_score := lvl.1
      support_label := lvl.2.1
      support_color := lvl.2.2.1
      support_emoji := lvl.2.2.2
      convective_mode := c.mode
      fail_modes := c.fails
      notes := c.notes
      warnings := c.warns }

/-- The `SoundingProfile` input fields consumed by `analyze_profile`
(data_fetcher.py lines 32-61); `gridPresent` models
`grid_lats is not None`. -/
structure SoundingProfile where
  p_hpa : List ℚ := []
  t_c : List ℚ := []
  td_c : List ℚ := []
  heights_m_agl : List ℚ := []
  u_kt : List ℚ := []
  v_kt : List ℚ := []
  t_sfc_c : ℚ := 0
  td_sfc_c : ℚ := 0
  p_sfc_hpa : ℚ := 1013.25
  gridPresent : Bool := false

/-- Success values of the CAPE stage of `analyze_profile`
(analysis_engine.py lines 135-144). -/
structure CapeStage where
  mlcape : ℚ
  mucape : ℚ
  mlcin : ℚ
  mucin : ℚ
  ml_lcl_hgt : ℚ
  mu_lcl_hgt : ℚ
  ml_lcl_t_c : ℚ
  mu_lcl_t_c : ℚ

/-- Success values of the kinematics stage of `analyze_profile`
(analysis_engine.py lines 186-208). -/
structure KinStage where
  shear_01_kt : ℚ
  shear_06_kt : ℚ
  shear_36_kt : ℚ
  rm_u : ℚ
  rm_v : ℚ
  storm_dir_deg : ℚ
  storm_speed_kt : ℚ
  srh_01 : ℚ
  srh_03 : ℚ

/-- Outcome of each fallible stage of `analyze_profile`: `none` models the
stage raising an exception (caught at the stage boundary in the
corresponding `except` handler), `some` carries the computed values of the
transcendental numeric work.  For the lifted index, `some none` models the
try block completing without assigning (`p_lcl ≤ 500`).  `sq` is the square
root used by the composite stage for VGP. -/
structure Stages where
  cape : Option CapeStage
  li : Option (Option ℚ)
  lapse : Option (ℚ × ℚ)
  pw : Option ℚ
  rh : Option ℚ
  kin : Option KinStage
  compOk : Bool
  sq : ℚ → ℚ
  boundary : Option BoundaryInfo

/-- Instability stage of `analyze_profile` (analysis_engine.py lines
135-147): on success the eight CAPE/CIN/LCL fields are installed, on
failure a note is appended and the fields keep their defaults. -/
def instabilityStage (st : Stages) (r : EnvironmentAnalysis) : EnvironmentAnalysis :=
  match st.cape with
  | some c =>
      { r with
        mlcape := c.mlcape, mucape := c.mucape, mlcin := c.mlcin, mucin := c.mucin,
        ml_lcl_hgt := c.ml_lcl_hgt, mu_lcl_hgt := c.mu_lcl_hgt,
        ml_lcl_t_c := c.ml_lcl_t_c, mu_lcl_t_c := c.mu_lcl_t_c }
  | none => { r with notes := r.notes ++ [Msg.capeIncomplete] }

/-- Lifted-index stage (analysis_engine.py lines 150-161): the try block
either assigns the integrated value, or completes without assigning
(`p_lcl ≤ 500`), or fails and substitutes the `-mlcape/500` proxy. -/
def liStage (st : Stages) (r : EnvironmentAnalysis) : EnvironmentAnalysis :=
  match st.li with
  | some (some x) => { r with li := x }
  | some none => r
  | none => { r with li := roundQ 1 (-r.mlcape / 500) }

/-- Lapse-rate stage (analysis_engine.py lines 164-168): failure is logged
only, no note. -/
def lapseStage (st : Stages) (r : EnvironmentAnalysis) : EnvironmentAnalysis :=
  match st.lapse with
  | some lr => { r with lapse_700_500 := lr.1, lapse_sfc_700 := lr.2 }
  | none => r

/-- Precipitable-water stage (analysis_engine.py lines 171-174): failure is
a bare `pass`, the field keeps its default and no note is appended. -/
def pwStage (st : Stages) (r : EnvironmentAnalysis) : EnvironmentAnalysis :=
  match st.pw with
  | some w => { r with pw_mm := w }
  | none => r

/-- Surface-RH stage (analysis_engine.py lines 177-183): failure silently
substitutes 60%. -/
def rhStage (st : Stages) (r : EnvironmentAnalysis) : EnvironmentAnalysis :=
  match st.rh with
  | some x => { r with rh_sfc := x }
  | none => { r with rh_sfc := 60 }

/-- Kinematics stage (analysis_engine.py lines 186-212): on success shear,
storm motion and SRH are installed, with the effective-layer SRH proxy
gated on the already-computed MLCAPE/MLCIN; on failure a note is appended. -/
def kinematicsStage (st : Stages) (r : EnvironmentAnalysis) : EnvironmentAnalysis :=
  match st.kin with
  | some k =>
      { r with
        shear_01_kt := k.shear_01_kt, shear_06_kt := k.shear_06_kt,
        shear_36_kt := k.shear_36_kt, storm_motion_rm := (k.rm_u, k.rm_v),
        storm_dir_deg := k.storm_dir_deg, storm_speed_kt := k.storm_speed_kt,
        srh_01 := k.srh_01, srh_03 := k.srh_03,
        srh_eff := if 100 ≤ r.mlcape ∧ -250 ≤ r.mlcin then k.srh_03 else 0 }
  | none => { r with notes := r.notes ++ [Msg.kinIncomplete] }

/-- Composite-parameter stage (analysis_engine.py lines 215-229): applies
the met_core composite index functions to the fields accumulated so far;
failure leaves all seven indices at their defaults with no note. -/
def compositeStage (st : Stages) (r : EnvironmentAnalysis) : EnvironmentAnalysis :=
  if st.compOk then
    { r with
      scp := supercell_composite r.mucape r.srh_eff r.shear_06_kt,
      stp := significant_tornado_parameter r.mlcape r.ml_lcl_hgt r.srh_01
        r.shear_06_kt r.mlcin,
      ehi_01 := energy_helicity_index r.mlcape r.srh_01,
      ehi_03 := energy_helicity_index r.mlcape r.srh_03,
      ship := significant_hail_parameter r.mucape r.mu_lcl_t_c r.lapse_700_500
        r.pw_mm r.shear_06_kt,
      vgp := vorticity_generation_parameter st.sq r.srh_01 r.shear_01_kt,
      craven := craven_brooks r.mlcape r.shear_06_kt }
  else r

/-- Boundary-detection stage (analysis_engine.py lines 232-244): with grid
data the detector result (or nothing, on failure) is stored; without grid
data the explicit skipped-with-note record is stored. -/
def boundaryStage (prof : SoundingProfile) (st : Stages) (r : EnvironmentAnalysis) :
    EnvironmentAnalysis :=
  if prof.gridPresent then
    match st.boundary with
    | some b => { r with boundary := some b }
    | none => r
  else
    { r with
      boundary := some { detected := false, btype := "None", max_gradient := 0,
                         bnotes := [Msg.gridUnavailable] } }

/-- The stage-by-stage population of the analysis record in
`analyze_profile` (analysis_engine.py lines 134-244), run after the
level-count guard, in source order. -/
def stagePipeline (prof : SoundingProfile) (st : Stages) : EnvironmentAnalysis :=
  boundaryStage prof st (compositeStage st (kinematicsStage st (rhStage st
    (pwStage st (lapseStage st (liStage st (instabilityStage st defaultAnalysis)))))))

/-- `analyze_profile` (analysis_engine.py lines 116-249): profiles with
fewer than 4 levels return the all-default record with the single
insufficient-levels fail mode; otherwise the stage pipeline runs and
`_score_and_reason` produces the final classification. -/
def analyze_profile (prof : SoundingProfile) (st : Stages) : EnvironmentAnalysis :=
  if prof.p_hpa.length < 4 then
    { defaultAnalysis with fail_modes := [Msg.insufficientLevels] }
  else score_and_reason (stagePipeline prof st)

-- ───────────────────────────── Theorems ───────────────────────────────────

lemma foldl_capeCinStep_fst (cs : List ℚ) : ∀ a b : ℚ,
    (cs.foldl capeCinStep (a, b)).1 = a + (cs.filter fun c => 0 < c).sum := by
  induction cs with
  | nil => intro a b; simp
  | cons c cs ih =>
    intro a b
    by_cases hc : 0 < c
    · simp [capeCinStep, hc, List.filter_cons, ih]; ring
    · by_cases ha : a = 0
      · simp [capeCinStep, hc, ha, List.filter_cons, ih]
      · simp [capeCinStep, hc, ha, List.filter_cons, ih]

lemma foldl_capeCinStep_pos (cs : List ℚ) : ∀ a b : ℚ, 0 < a →
    (cs.foldl capeCinStep (a, b)).2 = b := by
  induction cs with
  | nil => intro a b _; rfl
  | cons c cs ih =>
    intro a b ha
    by_cases hc : 0 < c
    · simp only [List.foldl_cons, capeCinStep, if_pos hc]
      exact ih _ _ (by linarith)
    · simp only [List.foldl_cons, capeCinStep, if_neg hc, if_neg (ne_of_gt ha)]
      exact ih _ _ ha

lemma filter_pos_sum_nonneg (cs : List ℚ) : 0 ≤ (cs.filter fun c => 0 < c).sum := by
  apply List.sum_nonneg
  intro x hx
  have := List.of_mem_filter hx
  simp at this
  linarith

/-- C1: in the `_cape_cin` integration loop, every positive
buoyancy-times-thickness contribution is added to CAPE (CAPE equals the sum
of the positive contributions), and once any positive contribution has
occurred the CIN accumulator is frozen: CIN over `pre ++ c :: post` with
`c > 0` equals CIN over `pre ++ [c]`, so no negative contribution is added
to CIN after CAPE has become positive. -/
theorem cape_cin_accrual_policy :
    (∀ cs : List ℚ, (capeCinFold cs).1 = (cs.filter fun c => 0 < c).sum) ∧
    ∀ (pre : List ℚ) (c : ℚ) (post : List ℚ), 0 < c →
      (capeCinFold (pre ++ c :: post)).2 = (capeCinFold (pre ++ [c])).2 := by
  constructor
  · intro cs
    simpa using foldl_capeCinStep_fst cs 0 0
  · intro pre c post hc
    unfold capeCinFold
    rw [List.foldl_append, List.foldl_append]
    rcases hs : List.foldl capeCinStep (0, 0) pre with ⟨a, b⟩
    have ha : 0 ≤ a := by
      have := foldl_capeCinStep_fst pre 0 0
      rw [hs] at this
      simp at this
      rw [this]
      exact filter_pos_sum_nonneg pre
    have hstep : capeCinStep (a, b) c = (a + c, b) := by
      simp [capeCinStep, if_pos hc]
    simp only [List.foldl_cons, List.foldl_nil, hstep]
    exact foldl_capeCinStep_pos post _ _ (by linarith)

/-- Witness for C1 at a concrete contribution list: the positive
contribution 3 after the negative prefix freezes CIN for the rest. -/
theorem cape_cin_accrual_policy_witness :
    (capeCinFold ([-5] ++ 3 :: [-7])).2 = (capeCinFold ([-5] ++ [3])).2 :=
  cape_cin_accrual_policy.2 [-5] 3 [-7] (by norm_num)

/-- C4: the CAPE values returned by `compute_cape_cin` are floored at 0:
for every input, `mlcape` and `mucape` are nonnegative. -/
theorem compute_cape_cin_cape_nonneg (lg : ℚ → ℚ)
    (mlLevels muLevels : List (ℚ × ℚ × ℚ)) (mu_p h1 h2 t1 t2 : ℚ) :
    0 ≤ (compute_cape_cin lg mlLevels muLevels mu_p h1 h2 t1 t2).mlcape ∧
      0 ≤ (compute_cape_cin lg mlLevels muLevels mu_p h1 h2 t1 t2).mucape :=
  ⟨le_max_left 0 _, le_max_left 0 _⟩

/-- C10: when fewer than two wind-profile levels lie at or below the layer
top, `bunkers_storm_motion` returns the all-zero record (right-mover,
left-mover and mean wind all zero) without any error. -/
theorem bunkers_insufficient_levels (sq : ℚ → ℚ) (levels : List (ℚ × ℚ × ℚ))
    (top_m D_kt : ℚ) (h : (levels.filter fun l => l.1 ≤ top_m).length < 2) :
    bunkers_storm_motion sq levels top_m D_kt = ⟨0, 0, 0, 0, 0, 0⟩ := by
  simp only [bunkers_storm_motion]
  rw [if_pos h]

/-- Witness for C10: a single level above 6000 m yields the zero record. -/
theorem bunkers_insufficient_levels_witness :
    bunkers_storm_motion (fun _ => 0) [((7000 : ℚ), 1, 2)] 6000 14.6 = ⟨0, 0, 0, 0, 0, 0⟩ :=
  bunkers_insufficient_levels _ _ _ _ (by norm_num [List.filter])

/-- C5: for a non-degenerate shear vector (magnitude not below the 0.5 kt
threshold, supplied by a square root `sq` faithful on the shear argument),
the Bunkers right-mover minus left-mover vector has squared magnitude
`(2 * 14.6)^2` — i.e. magnitude twice the 14.6 kt deviation — and is
perpendicular (zero dot product) to the 0–6 km shear vector. -/
theorem bunkers_deviation_geometry (sq : ℚ → ℚ) (levels : List (ℚ × ℚ × ℚ))
    (top_m sh_u sh_v m : ℚ)
    (hlen : ¬ (levels.filter fun l => l.1 ≤ top_m).length < 2)
    (hshu : sh_u = ((levels.filter fun l => l.1 ≤ top_m).getLastD (0, 0, 0)).2.1 -
      ((levels.filter fun l => l.1 ≤ top_m).headD (0, 0, 0)).2.1)
    (hshv : sh_v = ((levels.filter fun l => l.1 ≤ top_m).getLastD (0, 0, 0)).2.2 -
      ((levels.filter fun l => l.1 ≤ top_m).headD (0, 0, 0)).2.2)
    (hm : m = sq (sh_u ^ 2 + sh_v ^ 2))
    (hpyth : m ^ 2 = sh_u ^ 2 + sh_v ^ 2)
    (hnondeg : ¬ m < 0.5) :
    ((bunkers_storm_motion sq levels top_m 14.6).rm_u -
        (bunkers_storm_motion sq levels top_m 14.6).lm_u) ^ 2 +
      ((bunkers_storm_motion sq levels top_m 14.6).rm_v -
        (bunkers_storm_motion sq levels top_m 14.6).lm_v) ^ 2 = (2 * 14.6) ^ 2 ∧
    ((bunkers_storm_motion sq levels top_m 14.6).rm_u -
        (bunkers_storm_motion sq levels top_m 14.6).lm_u) * sh_u +
      ((bunkers_storm_motion sq levels top_m 14.6).rm_v -
        (bunkers_storm_motion sq levels top_m 14.6).lm_v) * sh_v = 0 := by
  have hm0 : m ≠ 0 := by
    intro h0
    rw [h0] at hnondeg
    norm_num at hnondeg
  simp only [bunkers_storm_motion]
  rw [if_neg hlen, ← hshu, ← hshv, ← hm, if_neg hnondeg]
  simp only
  constructor
  · field_simp
    linear_combination (-(4 * (14.6 : ℚ) ^ 2)) * hpyth
  · field_simp
    ring

/-- Witness for C5 at a concrete two-level profile with shear vector
(3, 4) and true magnitude 5. -/
theorem bunkers_deviation_geometry_witness :
    ((bunkers_storm_motion (fun q => if q = 25 then 5 else 0)
          [((0 : ℚ), 0, 0), (6000, 3, 4)] 6000 14.6).rm_u -
        (bunkers_storm_motion (fun q => if q = 25 then 5 else 0)
          [((0 : ℚ), 0, 0), (6000, 3, 4)] 6000 14.6).lm_u) ^ 2 +
      ((bunkers_storm_motion (fun q => if q = 25 then 5 else 0)
          [((0 : ℚ), 0, 0), (6000, 3, 4)] 6000 14.6).rm_v -
        (bunkers_storm_motion (fun q => if q = 25 then 5 else 0)
          [((0 : ℚ), 0, 0), (6000, 3, 4)] 6000 14.6).lm_v) ^ 2 = (2 * 14.6) ^ 2 ∧
    ((bunkers_storm_motion (fun q => if q = 25 then 5 else 0)
          [((0 : ℚ), 0, 0), (6000, 3, 4)] 6000 14.6).rm_u -
        (bunkers_storm_motion (fun q => if q = 25 then 5 else 0)
          [((0 : ℚ), 0, 0), (6000, 3, 4)] 6000 14.6).lm_u) * 3 +
      ((bunkers_storm_motion (fun q => if q = 25 then 5 else 0)
          [((0 : ℚ), 0, 0), (6000, 3, 4)] 6000 14.6).rm_v -
        (bunkers_storm_motion (fun q => if q = 25 then 5 else 0)
          [((0 : ℚ), 0, 0), (6000, 3, 4)] 6000 14.6).lm_v) * 4 = 0 :=
  bunkers_deviation_geometry (fun q => if q = 25 then 5 else 0)
    [((0 : ℚ), 0, 0), (6000, 3, 4)] 6000 3 4 5
    (by norm_num [List.filter])
    (by norm_num [List.filter, List.getLastD])
    (by norm_num [List.filter, List.getLastD])
    (by norm_num) (by norm_num) (by norm_num)

/-- C6: each composite index returns exactly 0 whenever its documented
gating condition fails: SCP when MUCAPE < 100 or effective SRH ≤ 0 or 0–6 km
shear < 10 kt; STP when MLCAPE < 100 or 0–1 km SRH ≤ 0 or shear < 12 kt;
EHI when CAPE < 100 or SRH ≤ 0; SHIP when MUCAPE < 100; VGP unless both
SRH and 0–1 km shear are positive. -/
theorem composite_gate_zero :
    (∀ mucape eff_srh sh : ℚ, mucape < 100 ∨ eff_srh ≤ 0 ∨ sh < 10 →
      supercell_composite mucape eff_srh sh = 0) ∧
    (∀ mlcape lcl srh sh cin : ℚ, mlcape < 100 ∨ srh ≤ 0 ∨ sh < 12 →
      significant_tornado_parameter mlcape lcl srh sh cin = 0) ∧
    (∀ cape srh : ℚ, cape < 100 ∨ srh ≤ 0 → energy_helicity_index cape srh = 0) ∧
    (∀ mucape lclt lapse pw sh : ℚ, mucape < 100 →
      significant_hail_parameter mucape lclt lapse pw sh = 0) ∧
    (∀ (sq : ℚ → ℚ) (srh sh : ℚ), srh ≤ 0 ∨ sh ≤ 0 →
      vorticity_generation_parameter sq srh sh = 0) := by
  refine ⟨?_, ?_, ?_, ?_, ?_⟩
  · intro mucape eff_srh sh h
    simp only [supercell_composite]
    rw [if_pos h]
  · intro mlcape lcl srh sh cin h
    simp only [significant_tornado_parameter]
    rw [if_pos h]
  · intro cape srh h
    simp only [energy_helicity_index]
    rw [if_pos h]
  · intro mucape lclt lapse pw sh h
    simp only [significant_hail_parameter]
    rw [if_pos h]
  · intro sq srh sh h
    simp only [vorticity_generation_parameter]
    rw [if_pos h]

/-- Witness for C6 at concrete gate-failing inputs for all five indices. -/
theorem composite_gate_zero_witness :
    supercell_composite 50 100 30 = 0 ∧
    significant_tornado_parameter 2000 800 (-5) 40 0 = 0 ∧
    energy_helicity_index 99 150 = 0 ∧
    significant_hail_parameter 80 (-8) 7 30 45 = 0 ∧
    vorticity_generation_parameter (fun _ => 0) 150 0 = 0 :=
  ⟨composite_gate_zero.1 50 100 30 (Or.inl (by norm_num)),
   composite_gate_zero.2.1 2000 800 (-5) 40 0 (Or.inr (Or.inl (by norm_num))),
   composite_gate_zero.2.2.1 99 150 (Or.inl (by norm_num)),
   composite_gate_zero.2.2.2.1 80 (-8) 7 30 45 (by norm_num),
   composite_gate_zero.2.2.2.2 (fun _ => 0) 150 0 (Or.inr (by norm_num))⟩

/-- C2: for every profile with fewer than 4 vertical levels and every
stage outcome, `analyze_profile` returns the all-default analysis (every
numeric field at its default, convective mode "No Convective Threat") with
exactly the single insufficient-levels fail mode. -/
theorem analyze_profile_insufficient_levels (prof : SoundingProfile) (st : Stages)
    (h : prof.p_hpa.length < 4) :
    analyze_profile prof st =
      { defaultAnalysis with fail_modes := [Msg.insufficientLevels] } := by
  rw [analyze_profile, if_pos h]

/-- Witness for C2 at a concrete three-level profile. -/
theorem analyze_profile_insufficient_levels_witness :
    analyze_profile { p_hpa := [1000, 900, 800] }
        { cape := none, li := none, lapse := none, pw := none, rh := none,
          kin := none, compOk := false, sq := fun _ => 0, boundary := none } =
      { defaultAnalysis with fail_modes := [Msg.insufficientLevels] } :=
  analyze_profile_insufficient_levels _ _ (by norm_num)

/-- C3: the instability gate of `_score_and_reason` is terminal — when
MLCAPE < 100 and MUCAPE < 200 the analysis is returned immediately with
convective mode "No Convective Threat", support score 0 (level 0 of the
table) and exactly one fail mode, and no other rule of the cascade runs:
notes and warnings are exactly as they were on entry. -/
theorem score_and_reason_gate_terminal (r : EnvironmentAnalysis)
    (h1 : r.mlcape < 100) (h2 : r.mucape < 200) :
    score_and_reason r =
      { r with
        convective_mode := "No Convective Threat"
        fail_modes := [Msg.gateInsufficientInstability]
        support_score := 0
        support_label := "None"
        support_color := "grey"
        support_emoji := "⬛" } := by
  rw [score_and_reason, if_pos ⟨h1, h2⟩]

/-- Witness for C3 at a concrete analysis with zero instability. -/
theorem score_and_reason_gate_terminal_witness :
    score_and_reason { mlcape := 0, mucape := 0 } =
      { ({ mlcape := 0, mucape := 0 } : EnvironmentAnalysis) with
        convective_mode := "No Convective Threat"
        fail_modes := [Msg.gateInsufficientInstability]
        support_score := 0
        support_label := "None"
        support_color := "grey"
        support_emoji := "⬛" } :=
  score_and_reason_gate_terminal _ (by norm_num) (by norm_num)

/-- C7: an analysis passing the instability gate with 0–6 km shear ≥ 40 kt,
MLCAPE ≥ 500 and STP ≥ 1 is assigned exactly one convective mode by the
ladder and it is a tornadic-supercell tier: "Significant Tornadic
Supercells" when STP ≥ 2, otherwise "Tornadic Supercells" — never
"Multicell Clusters" or any lower tier. -/
theorem tornadic_supercell_tier (r : EnvironmentAnalysis)
    (hsh : 40 ≤ r.shear_06_kt) (hcape : 500 ≤ r.mlcape) (hstp : 1 ≤ r.stp) :
    (score_and_reason r).convective_mode =
      if 2 ≤ r.stp then "Significant Tornadic Supercells" else "Tornadic Supercells" := by
  have hg : ¬ (r.mlcape < 100 ∧ r.mucape < 200) := by
    rintro ⟨hc, _⟩
    linarith
  rw [score_and_reason, if_neg hg]
  show (convectiveMode r).1 = _
  rw [convectiveMode, if_pos ⟨hsh, hcape⟩]
  by_cases h2 : 2 ≤ r.stp
  · rw [if_pos h2, if_pos h2]
  · rw [if_neg h2, if_neg h2, if_pos hstp]

/-- Witness for C7 at a concrete analysis with shear 50 kt, MLCAPE 2000 and
STP 1.5. -/
theorem tornadic_supercell_tier_witness :
    (score_and_reason { shear_06_kt := 50, mlcape := 2000, stp := 1.5 }).convective_mode =
      if 2 ≤ ({ shear_06_kt := 50, mlcape := 2000, stp := 1.5 } : EnvironmentAnalysis).stp
      then "Significant Tornadic Supercells" else "Tornadic Supercells" :=
  tornadic_supercell_tier _ (by norm_num) (by norm_num) (by norm_num)

lemma support_levels_fst (s : ℕ) (hs : s ≤ 5) :
    (SUPPORT_LEVELS.getD s (0, "None", "grey", "⬛")).1 = s := by
  interval_cases s <;> rfl

lemma score_and_reason_support_score (r : EnvironmentAnalysis)
    (hg : ¬ (r.mlcape < 100 ∧ r.mucape < 200)) :
    (score_and_reason r).support_score = min (rawScore r) 5 := by
  rw [score_and_reason, if_neg hg]
  show (SUPPORT_LEVELS.getD (min (rawScore r) 5) (0, "None", "grey", "⬛")).1 =
    min (rawScore r) 5
  exact support_levels_fst _ (min_le_right _ _)

lemma ite_one_zero_mono {c d : Prop} [Decidable c] [Decidable d] (h : c → d) :
    (if c then (1 : ℕ) else 0) ≤ if d then 1 else 0 := by
  split_ifs with hc hd
  · exact le_rfl
  · exact absurd (h hc) hd
  · exact Nat.zero_le _
  · exact le_rfl

lemma rawScore_mono_mlcape (r : EnvironmentAnalysis) (a b : ℚ) (hab : a ≤ b) :
    rawScore { r with mlcape := a } ≤ rawScore { r with mlcape := b } := by
  simp only [rawScore]
  refine Nat.add_le_add (Nat.add_le_add (Nat.add_le_add (Nat.add_le_add ?_ ?_) le_rfl) le_rfl)
    le_rfl
  · exact ite_one_zero_mono fun h => lt_of_lt_of_le h hab
  · exact ite_one_zero_mono fun h => lt_of_lt_of_le h hab

lemma rawScore_mono_shear (r : EnvironmentAnalysis) (a b : ℚ) (hab : a ≤ b) :
    rawScore { r with shear_06_kt := a } ≤ rawScore { r with shear_06_kt := b } := by
  simp only [rawScore]
  refine Nat.add_le_add (Nat.add_le_add (Nat.add_le_add (Nat.add_le_add le_rfl le_rfl) ?_)
    le_rfl) le_rfl
  exact ite_one_zero_mono fun h => lt_of_lt_of_le h hab

/-- C8: outside the instability gate the support score is the five-increment
sum capped at 5 (`rawScore`), with label/color/symbol taken from the fixed
six-entry `SUPPORT_LEVELS` table at that score; and the resulting score is
monotonically non-decreasing in MLCAPE and in 0–6 km shear with all other
scoring inputs held fixed (the gate path yields score 0, below any score). -/
theorem support_score_five_increments :
    (∀ r : EnvironmentAnalysis, ¬ (r.mlcape < 100 ∧ r.mucape < 200) →
      (score_and_reason r).support_score = min (rawScore r) 5 ∧
      ((score_and_reason r).support_label, (score_and_reason r).support_color,
        (score_and_reason r).support_emoji) =
        (SUPPORT_LEVELS.getD (min (rawScore r) 5) (0, "None", "grey", "⬛")).2) ∧
    (∀ (r : EnvironmentAnalysis) (a b : ℚ), a ≤ b →
      (score_and_reason { r with mlcape := a }).support_score ≤
        (score_and_reason { r with mlcape := b }).support_score) ∧
    (∀ (r : EnvironmentAnalysis) (a b : ℚ), a ≤ b →
      (score_and_reason { r with shear_06_kt := a }).support_score ≤
        (score_and_reason { r with shear_06_kt := b }).support_score) := by
  refine ⟨?_, ?_, ?_⟩
  · intro r hg
    refine ⟨score_and_reason_support_score r hg, ?_⟩
    rw [score_and_reason, if_neg hg]
  · intro r a b hab
    by_cases hga : a < 100 ∧ r.mucape < 200
    · rw [score_and_reason,
        if_pos (show ({ r with mlcape := a } : EnvironmentAnalysis).mlcape < 100 ∧
          ({ r with mlcape := a } : EnvironmentAnalysis).mucape < 200 from hga)]
      exact Nat.zero_le _
    · have hgb : ¬ (b < 100 ∧ r.mucape < 200) := fun hb =>
        hga ⟨lt_of_le_of_lt hab hb.1, hb.2⟩
      rw [score_and_reason_support_score _ hga, score_and_reason_support_score _ hgb]
      exact min_le_min (rawScore_mono_mlcape r a b hab) le_rfl
  · intro r a b hab
    by_cases hg : r.mlcape < 100 ∧ r.mucape < 200
    · rw [score_and_reason,
        if_pos (show ({ r with shear_06_kt := a } : EnvironmentAnalysis).mlcape < 100 ∧
          ({ r with shear_06_kt := a } : EnvironmentAnalysis).mucape < 200 from hg)]
      exact Nat.zero_le _
    · rw [score_and_reason_support_score { r with shear_06_kt := a }
          (show ¬ (({ r with shear_06_kt := a } : EnvironmentAnalysis).mlcape < 100 ∧
            ({ r with shear_06_kt := a } : EnvironmentAnalysis).mucape < 200) from hg),
        score_and_reason_support_score { r with shear_06_kt := b }
          (show ¬ (({ r with shear_06_kt := b } : EnvironmentAnalysis).mlcape < 100 ∧
            ({ r with shear_06_kt := b } : EnvironmentAnalysis).mucape < 200) from hg)]
      exact min_le_min (rawScore_mono_shear r a b hab) le_rfl

/-- Witness for C8: the characterization at a gate-passing analysis and the
two monotonicity statements at concrete inputs. -/
theorem support_score_five_increments_witness :
    ((score_and_reason { mlcape := 2000, shear_06_kt := 45 }).support_score =
      min (rawScore { mlcape := 2000, shear_06_kt := 45 }) 5 ∧
      ((score_and_reason { mlcape := 2000, shear_06_kt := 45 }).support_label,
        (score_and_reason { mlcape := 2000, shear_06_kt := 45 }).support_color,
        (score_and_reason { mlcape := 2000, shear_06_kt := 45 }).support_emoji) =
        (SUPPORT_LEVELS.getD (min (rawScore { mlcape := 2000, shear_06_kt := 45 }) 5)
          (0, "None", "grey", "⬛")).2) ∧
    (score_and_reason { defaultAnalysis with mlcape := 0 }).support_score ≤
      (score_and_reason { defaultAnalysis with mlcape := 1000 }).support_score ∧
    (score_and_reason { defaultAnalysis with shear_06_kt := 10 }).support_score ≤
      (score_and_reason { defaultAnalysis with shear_06_kt := 50 }).support_score :=
  ⟨support_score_five_increments.1 _ (by norm_num),
   support_score_five_increments.2.1 defaultAnalysis 0 1000 (by norm_num),
   support_score_five_increments.2.2 defaultAnalysis 10 50 (by norm_num)⟩

lemma instabilityStage_notes (st : Stages) (r : EnvironmentAnalysis) :
    (instabilityStage st r).notes =
      r.notes ++ (match st.cape with | none => [Msg.capeIncomplete] | some _ => []) := by
  rcases h : st.cape with _ | c <;> simp [instabilityStage, h]

lemma liStage_notes (st : Stages) (r : EnvironmentAnalysis) :
    (liStage st r).notes = r.notes := by
  rcases h : st.li with _ | (_ | x) <;> simp [liStage, h]

lemma lapseStage_notes (st : Stages) (r : EnvironmentAnalysis) :
    (lapseStage st r).notes = r.notes := by
  rcases h : st.lapse with _ | lr <;> simp [lapseStage, h]

lemma pwStage_notes (st : Stages) (r : EnvironmentAnalysis) :
    (pwStage st r).notes = r.notes := by
  rcases h : st.pw with _ | w <;> simp [pwStage, h]

lemma rhStage_notes (st : Stages) (r : EnvironmentAnalysis) :
    (rhStage st r).notes = r.notes := by
  rcases h : st.rh with _ | x <;> simp [rhStage, h]

lemma kinematicsStage_notes (st : Stages) (r : EnvironmentAnalysis) :
    (kinematicsStage st r).notes =
      r.notes ++ (match st.kin with | none => [Msg.kinIncomplete] | some _ => []) := by
  rcases h : st.kin with _ | k <;> simp [kinematicsStage, h]

lemma compositeStage_notes (st : Stages) (r : EnvironmentAnalysis) :
    (compositeStage st r).notes = r.notes := by
  by_cases h : st.compOk <;> simp [compositeStage, h]

lemma boundaryStage_notes (prof : SoundingProfile) (st : Stages) (r : EnvironmentAnalysis) :
    (boundaryStage prof st r).notes = r.notes := by
  by_cases hg : prof.gridPresent
  · rcases h : st.boundary with _ | b <;> simp [boundaryStage, hg, h]
  · simp [boundaryStage, hg]

lemma stagePipeline_notes (prof : SoundingProfile) (st : Stages) :
    (stagePipeline prof st).notes =
      (match st.cape with | none => [Msg.capeIncomplete] | some _ => []) ++
      (match st.kin with | none => [Msg.kinIncomplete] | some _ => []) := by
  unfold stagePipeline
  rw [boundaryStage_notes, compositeStage_notes, kinematicsStage_notes, rhStage_notes,
    pwStage_notes, lapseStage_notes, liStage_notes, instabilityStage_notes]
  simp [defaultAnalysis]

/-- C9 counterexample: a run whose precipitable-water stage fails — leaving
`pw_mm` at its neutral default 0 — and whose final analysis carries an
empty notes list: the silent default substitution left no trace in notes,
refuting the claim that every such substitution is audited. -/
theorem silent_default_substitution :
    (analyze_profile { p_hpa := [1000, 900, 800, 700] }
        { cape := some ⟨0, 0, 0, 0, 0, 0, 0, 0⟩, li := some none, lapse := some (0, 0),
          pw := none, rh := some 50, kin := some ⟨0, 0, 0, 0, 0, 0, 0, 0, 0⟩,
          compOk := true, sq := fun _ => 0, boundary := none }).pw_mm = 0 ∧
    (analyze_profile { p_hpa := [1000, 900, 800, 700] }
        { cape := some ⟨0, 0, 0, 0, 0, 0, 0, 0⟩, li := some none, lapse := some (0, 0),
          pw := none, rh := some 50, kin := some ⟨0, 0, 0, 0, 0, 0, 0, 0, 0⟩,
          compOk := true, sq := fun _ => 0, boundary := none }).notes = [] := by
  constructor <;>
    norm_num [analyze_profile, stagePipeline, instabilityStage, liStage, lapseStage,
      pwStage, rhStage, kinematicsStage, compositeStage, boundaryStage, score_and_reason,
      defaultAnalysis, supercell_composite, significant_tornado_parameter,
      energy_helicity_index, significant_hail_parameter, vorticity_generation_parameter,
      craven_brooks, roundQ]

/-- C9 amended: only the CAPE and kinematics stage failures leave a trace in
the pre-scoring notes; a failing precipitable-water, lapse-rate or
surface-RH stage produces exactly the same notes as a succeeding one, so
those default substitutions are silent. -/
theorem stage_failure_audit (prof : SoundingProfile) (st : Stages) :
    (st.cape = none → Msg.capeIncomplete ∈ (stagePipeline prof st).notes) ∧
    (st.kin = none → Msg.kinIncomplete ∈ (stagePipeline prof st).notes) ∧
    (∀ q : ℚ, (stagePipeline prof { st with pw := none }).notes =
      (stagePipeline prof { st with pw := some q }).notes) ∧
    (∀ x : ℚ × ℚ, (stagePipeline prof { st with lapse := none }).notes =
      (stagePipeline prof { st with lapse := some x }).notes) ∧
    (∀ q : ℚ, (stagePipeline prof { st with rh := none }).notes =
      (stagePipeline prof { st with rh := some q }).notes) := by
  refine ⟨?_, ?_, ?_, ?_, ?_⟩
  · intro h
    rw [stagePipeline_notes, h]
    simp
  · intro h
    rw [stagePipeline_notes, h]
    simp
  · intro q
    rw [stagePipeline_notes, stagePipeline_notes]
  · intro x
    rw [stagePipeline_notes, stagePipeline_notes]
  · intro q
    rw [stagePipeline_notes, stagePipeline_notes]

/-- Witness for the amended C9 at a concrete stage outcome with failing
CAPE and kinematics stages. -/
theorem stage_failure_audit_witness :
    Msg.capeIncomplete ∈
      (stagePipeline { p_hpa := [1000, 900, 800, 700] }
        { cape := none, li := none, lapse := none, pw := none, rh := none,
          kin := none, compOk := false, sq := fun _ => 0, boundary := none }).notes ∧
    Msg.kinIncomplete ∈
      (stagePipeline { p_hpa := [1000, 900, 800, 700] }
        { cape := none, li := none, lapse := none, pw := none, rh := none,
          kin := none, compOk := false, sq := fun _ => 0, boundary := none }).notes :=
  ⟨(stage_failure_audit _ _).1 rfl, (stage_failure_audit _ _).2.1 rfl⟩
